import Mathlib

/-!
# Verification of the ComfyUI_Adforge generation/poll/materialize adapter

Shallow embedding of the relevant parts of `src/comfyui_adforge`:
`utils.poll_operation`, `utils.save_video_locally`, `utils.download_from_gcs`,
the `VertexVeoImageToVideoNode.execute` source-selection, config construction
and result-materialization logic, `LoadVideoGCS.load_video` URI validation,
and the `DefaultMixin` enumeration pattern of `settings.py`.

Machine integers are modelled as `Int`/`Nat` (Python ints are unbounded, so no
wrap-around is needed); byte strings as `List Nat`; Python `None`-able values
as `Option`; raised exceptions as `Except String`.  External effects (the GenAI
backend, GCS downloads, the clock) are passed in as explicit arguments, so a
result that is independent of such an argument proves that the corresponding
external call is never made on that path.
-/

namespace Adforge

namespace settings

/-- `settings.POLL_DELAY_SECONDS: int = 5` from `settings.py`. -/
def POLL_DELAY_SECONDS : Nat := 5

/-- `settings.DEFAULT_DURATION_SECONDS: int = 8` from `settings.py`. -/
def DEFAULT_DURATION_SECONDS : Nat := 8

end settings

/-- A generated video payload: `video_data.video` in the Python code, holding a
GCS URI and (for non-GCS output) the raw video bytes. -/
structure Video where
  uri : String
  video_bytes : List Nat
deriving Repr, DecidableEq

/-- One element of `result.generated_videos`. -/
structure GeneratedVideo where
  video : Video
deriving Repr, DecidableEq

/-- The payload of a completed generate-videos operation
(`operation.result` in the Python code). -/
structure GenResult where
  generated_videos : List GeneratedVideo
deriving Repr, DecidableEq

/-- One snapshot of a long-running operation handle, as seen after a status
fetch: `operation.done`, `operation.error`, `operation.result`.  A present
error is modelled as `some message` (the claim concerns non-null errors; the
degenerate Python case of a present-but-falsy error object is not reachable
from the backend contract and is not modelled). -/
structure Operation where
  done : Bool
  error : Option String
  result : Option GenResult
deriving Repr, DecidableEq

/-- The terminal step of `poll_operation` once `operation.done` holds:
`raise RuntimeError(f"Operation failed: {operation.error}")` when an error is
present, else `return operation.result`. -/
def terminalOutcome (op : Operation) : Except String (Option GenResult) :=
  match op.error with
  | some e => .error ("Operation failed: " ++ e)
  | none => .ok op.result

deriving instance DecidableEq for Except

/-- Observable behaviour of one `poll_operation` run: how many status
re-fetches (`client.operations.get`) happened, the list of sleep durations in
order, and the outcome. -/
structure PollOutcome where
  fetches : Nat
  sleeps : List Nat
  outcome : Except String (Option GenResult)
deriving Repr, DecidableEq

/-- Loop body of `utils.poll_operation`.  `ops i` is the operation state after
`i` re-fetches (`ops 0` is the handle passed in; `ops (i+1)` is what
`client.operations.get` returns on the `(i+1)`-th fetch).  The Python loop is
unbounded; `fuel` bounds the embedding, and a `none` result means the loop is
still running after `fuel` iterations. -/
def pollAux (ops : Nat → Operation) : Nat → Nat → List Nat → Option PollOutcome
  | fuel, i, sleeps =>
    if (ops i).done then
      some { fetches := i, sleeps := sleeps, outcome := terminalOutcome (ops i) }
    else
      match fuel with
      | 0 => none
      | fuel + 1 => pollAux ops fuel (i + 1) (sleeps ++ [settings.POLL_DELAY_SECONDS])

/-- `utils.poll_operation`: `while not operation.done: sleep(POLL_DELAY_SECONDS);
operation = client.operations.get(operation)`, then raise on error / return the
result. -/
def poll_operation (ops : Nat → Operation) (fuel : Nat) : Option PollOutcome :=
  pollAux ops fuel 0 []

/-- The node-level composition: the materializer runs on the poll result only
when polling returned successfully (in the Python nodes the materialization
loop follows `utils.poll_operation`, whose exception otherwise propagates). -/
def pollThenMaterialize (ops : Nat → Operation) (fuel : Nat)
    (materializer : Option GenResult → List String) :
    Option (Except String (List String)) :=
  match poll_operation ops fuel with
  | none => none
  | some o => some (o.outcome.map materializer)

theorem pollAux_done_of_first (ops : Nat → Operation) (N : Nat)
    (hmin : ∀ j, j < N → (ops j).done = false) (hN : (ops N).done = true) :
    ∀ fuel i sleeps, i ≤ N → N - i ≤ fuel →
      pollAux ops fuel i sleeps =
        some { fetches := N,
               sleeps := sleeps ++ List.replicate (N - i) settings.POLL_DELAY_SECONDS,
               outcome := terminalOutcome (ops N) } := by
  intro fuel
  induction fuel with
  | zero =>
    intro i sleeps hi hfuel
    have hiN : i = N := by omega
    subst hiN
    simp [pollAux, hN]
  | succ f ih =>
    intro i sleeps hi hfuel
    by_cases hdone : (ops i).done = true
    · have hiN : i = N := by
        by_contra hne
        have : i < N := lt_of_le_of_ne hi hne
        have := hmin i this
        rw [this] at hdone
        exact Bool.noConfusion hdone
      subst hiN
      simp [pollAux, hdone]
    · have hlt : i < N := by
        rcases lt_or_eq_of_le hi with h | h
        · exact h
        · subst h; exact absurd hN hdone
      have hstep : pollAux ops (f + 1) i sleeps =
          pollAux ops f (i + 1) (sleeps ++ [settings.POLL_DELAY_SECONDS]) := by
        simp [pollAux, hdone]
      rw [hstep, ih (i + 1) (sleeps ++ [settings.POLL_DELAY_SECONDS]) (by omega) (by omega)]
      have hrepl : N - i = (N - (i + 1)) + 1 := by omega
      rw [hrepl, List.replicate_succ, List.append_assoc]
      rfl

theorem pollAux_none_of_never (ops : Nat → Operation) :
    ∀ fuel i sleeps, (∀ j, i ≤ j → j ≤ i + fuel → (ops j).done = false) →
      pollAux ops fuel i sleeps = none := by
  intro fuel
  induction fuel with
  | zero =>
    intro i sleeps h
    have := h i (le_refl i) (by omega)
    simp [pollAux, this]
  | succ f ih =>
    intro i sleeps h
    have hi := h i (le_refl i) (by omega)
    have hstep : pollAux ops (f + 1) i sleeps =
        pollAux ops f (i + 1) (sleeps ++ [settings.POLL_DELAY_SECONDS]) := by
      simp [pollAux, hi]
    rw [hstep]
    exact ih (i + 1) _ (fun j h1 h2 => h j (by omega) (by omega))

/-- `poll_operation` on a handle first done after `N` re-fetches, with enough
fuel: `N` fetches, `N` sleeps of the configured delay, terminal outcome of the
`N`-th state. -/
theorem poll_operation_eq (ops : Nat → Operation) (N fuel : Nat)
    (hmin : ∀ j, j < N → (ops j).done = false) (hN : (ops N).done = true)
    (hfuel : N ≤ fuel) :
    poll_operation ops fuel =
      some { fetches := N,
             sleeps := List.replicate N settings.POLL_DELAY_SECONDS,
             outcome := terminalOutcome (ops N) } := by
  have := pollAux_done_of_first ops N hmin hN fuel 0 [] (Nat.zero_le N) (by omega)
  simpa [poll_operation] using this

/-- Example handle trace: not done initially, done with a backend error after
one re-fetch. -/
def opsErrEx : Nat → Operation := fun i =>
  if i = 0 then { done := false, error := none, result := none }
  else { done := true, error := some "backend exploded", result := none }

/-- Example result payload. -/
def resEx : GenResult :=
  { generated_videos := [ { video := { uri := "gs://b/v0.mp4", video_bytes := [1, 2] } } ] }

/-- Example handle trace: already done, no error, carrying a result. -/
def opsOkEx : Nat → Operation := fun _ =>
  { done := true, error := none, result := some resEx }

/-- Example handle trace that never reports done. -/
def opsNeverEx : Nat → Operation := fun _ =>
  { done := false, error := none, result := none }

/-- C1: for every operation handle whose terminal state (`done == true`)
carries a non-null error, `poll_operation` raises the operation-failed error
carrying that backend-supplied error detail, and the result materializer is
not invoked (the composed pipeline yields the same error for every
materializer); for every handle that reaches `done` with no error,
`poll_operation` returns the operation's result. -/
theorem C1_poll_error_propagation (ops : Nat → Operation) (N fuel : Nat)
    (hmin : ∀ j, j < N → (ops j).done = false) (hN : (ops N).done = true)
    (hfuel : N ≤ fuel) :
    (∀ e, (ops N).error = some e →
      poll_operation ops fuel =
        some { fetches := N,
               sleeps := List.replicate N settings.POLL_DELAY_SECONDS,
               outcome := .error ("Operation failed: " ++ e) } ∧
      ∀ materializer, pollThenMaterialize ops fuel materializer =
        some (.error ("Operation failed: " ++ e)))
  ∧ ((ops N).error = none →
      poll_operation ops fuel =
        some { fetches := N,
               sleeps := List.replicate N settings.POLL_DELAY_SECONDS,
               outcome := .ok (ops N).result }) := by
  have hpoll := poll_operation_eq ops N fuel hmin hN hfuel
  constructor
  · intro e he
    have houtcome : terminalOutcome (ops N) = .error ("Operation failed: " ++ e) := by
      simp [terminalOutcome, he]
    constructor
    · rw [hpoll, houtcome]
    · intro materializer
      simp [pollThenMaterialize, hpoll, houtcome, Except.map]
  · intro he
    have houtcome : terminalOutcome (ops N) = .ok (ops N).result := by
      simp [terminalOutcome, he]
    rw [hpoll, houtcome]

/-- Witness for C1 at concrete traces: an error handle (done after one
re-fetch with error "backend exploded") and a success handle. -/
theorem C1_poll_error_propagation_witness :
    (poll_operation opsErrEx 3 =
      some { fetches := 1, sleeps := [5],
             outcome := .error "Operation failed: backend exploded" })
  ∧ (pollThenMaterialize opsErrEx 3 (fun _ => ["materialized"]) =
      some (.error "Operation failed: backend exploded"))
  ∧ (poll_operation opsOkEx 3 =
      some { fetches := 0, sleeps := [], outcome := .ok (some resEx) }) := by
  have h1 := (C1_poll_error_propagation opsErrEx 1 3 (by decide) (by decide)
    (by decide)).1 "backend exploded" (by decide)
  have h2 := (C1_poll_error_propagation opsOkEx 0 3 (by decide) (by decide)
    (by decide)).2 (by decide)
  exact ⟨h1.1, h1.2 _, h2⟩

/-- C2: a handle first reporting `done == true` after exactly `N` re-fetches
causes exactly `N` status fetches, each preceded by a sleep of the configured
5-second delay; a handle already done causes zero fetches and zero sleeps; a
handle never reporting done keeps the loop running past any fuel bound (no
timeout, no attempt cap). -/
theorem C2_poll_fixed_delay_counts (ops : Nat → Operation) (N fuel : Nat) :
    settings.POLL_DELAY_SECONDS = 5
  ∧ ((∀ j, j < N → (ops j).done = false) → (ops N).done = true → N ≤ fuel →
      poll_operation ops fuel =
        some { fetches := N,
               sleeps := List.replicate N settings.POLL_DELAY_SECONDS,
               outcome := terminalOutcome (ops N) })
  ∧ ((ops 0).done = true →
      poll_operation ops fuel =
        some { fetches := 0, sleeps := [], outcome := terminalOutcome (ops 0) })
  ∧ ((∀ j, j ≤ fuel → (ops j).done = false) → poll_operation ops fuel = none) := by
  refine ⟨rfl, ?_, ?_, ?_⟩
  · intro hmin hN hfuel
    exact poll_operation_eq ops N fuel hmin hN hfuel
  · intro h0
    have := poll_operation_eq ops 0 fuel (fun j hj => absurd hj (Nat.not_lt_zero j)) h0
      (Nat.zero_le fuel)
    simpa using this
  · intro hnever
    exact pollAux_none_of_never ops fuel 0 [] (fun j h1 h2 => hnever j (by omega))

/-- Witness for C2 at concrete traces: done after one re-fetch (one fetch, one
5-second sleep), already done (zero fetches, zero sleeps), and never done
(fuel exhausted at several bounds). -/
theorem C2_poll_fixed_delay_counts_witness :
    (poll_operation opsErrEx 3 =
      some { fetches := 1, sleeps := [5],
             outcome := .error "Operation failed: backend exploded" })
  ∧ (poll_operation opsOkEx 7 =
      some { fetches := 0, sleeps := [], outcome := .ok (some resEx) })
  ∧ (poll_operation opsNeverEx 0 = none)
  ∧ (poll_operation opsNeverEx 9 = none) := by
  have h1 := (C2_poll_fixed_delay_counts opsErrEx 1 3).2.1 (by decide) (by decide) (by decide)
  have h2 := (C2_poll_fixed_delay_counts opsOkEx 0 7).2.2.1 (by decide)
  have h3 := (C2_poll_fixed_delay_counts opsNeverEx 0 0).2.2.2 (by decide)
  have h4 := (C2_poll_fixed_delay_counts opsNeverEx 0 9).2.2.2 (by decide)
  exact ⟨by simpa using h1, h2, h3, h4⟩

/-- The `google.genai.types.Image` request object: either inline bytes or a
GCS URI, plus a MIME type. -/
structure GenaiImage where
  image_bytes : Option (List Nat)
  gcs_uri : Option String
  mime_type : String
deriving Repr, DecidableEq

/-- Python truthiness of an optional byte string (`if image_bytes:`):
falsy when `None` or empty. -/
def pyTruthyBytes : Option (List Nat) → Bool
  | none => false
  | some bs => !bs.isEmpty

/-- Source-image selection of `VertexVeoImageToVideoNode.execute` (identical in
`video_generation/vertex_image_to_video.py` and
`api_nodes/video_generation/vertex_image_to_video.py`):
`if image_bytes: Image(image_bytes=...)` / `elif input_image_gcs_uri:
Image(gcs_uri=...)` / `else: raise ValueError(...)`.  An absent optional URI
input is the empty string (both are falsy in Python). -/
def selectSourceImage (image_bytes : Option (List Nat)) (input_image_gcs_uri : String)
    (image_mime_type : String) : Except String GenaiImage :=
  if pyTruthyBytes image_bytes then
    .ok { image_bytes := image_bytes, gcs_uri := none, mime_type := image_mime_type }
  else if !input_image_gcs_uri.isEmpty then
    .ok { image_bytes := none, gcs_uri := some input_image_gcs_uri,
          mime_type := image_mime_type }
  else
    .error "Either an image or an image GCS URI must be provided."

/-- The submit phase of `execute`: build the source image, then issue the one
`client.models.generate_videos` call.  The backend is an explicit argument, so
an output independent of it shows no generation call was made.  The
`ValueError` raised by source selection is re-raised by the node's
`except Exception` handler as `RuntimeError(f"Video generation failed: ...")`. -/
def submitPhase (image_bytes : Option (List Nat)) (input_image_gcs_uri : String)
    (image_mime_type : String) (backend : GenaiImage → Operation) :
    Except String Operation :=
  match selectSourceImage image_bytes input_image_gcs_uri image_mime_type with
  | .error e => .error ("Video generation failed: " ++ e)
  | .ok src => .ok (backend src)

/-- C3: when every source-media representation is absent (no inline image
bytes — `None` or empty — and an empty source GCS URI), the submit step fails
with the invalid-request error, and the result does not depend on the backend:
zero generation calls are issued. -/
theorem C3_missing_source_rejected_before_network (image_bytes : Option (List Nat))
    (input_image_gcs_uri image_mime_type : String)
    (hbytes : pyTruthyBytes image_bytes = false)
    (huri : input_image_gcs_uri = "") :
    ∀ backend, submitPhase image_bytes input_image_gcs_uri image_mime_type backend =
      .error "Video generation failed: Either an image or an image GCS URI must be provided." := by
  intro backend
  subst huri
  simp [submitPhase, selectSourceImage, hbytes, String.isEmpty]

/-- Witness for C3: no inline image and empty URI, two different backends,
same invalid-request failure. -/
theorem C3_missing_source_rejected_before_network_witness :
    pyTruthyBytes none = false
  ∧ submitPhase none "" "image/png" (fun _ => { done := true, error := none, result := none }) =
      .error "Video generation failed: Either an image or an image GCS URI must be provided."
  ∧ submitPhase none "" "image/png" (fun _ => { done := false, error := some "x", result := none }) =
      .error "Video generation failed: Either an image or an image GCS URI must be provided." := by
  refine ⟨by decide, ?_, ?_⟩
  · exact C3_missing_source_rejected_before_network none "" "image/png" (by decide) rfl _
  · exact C3_missing_source_rejected_before_network none "" "image/png" (by decide) rfl _

/-- C8: when both an inline image and a remote source URI are supplied, the
inline bytes build the backend request and the URI is silently ignored (the
selected source is the same for every URI, and no error is raised). -/
theorem C8_inline_bytes_take_precedence (bs : List Nat)
    (input_image_gcs_uri image_mime_type : String) (hbs : bs ≠ []) :
    selectSourceImage (some bs) input_image_gcs_uri image_mime_type =
      .ok { image_bytes := some bs, gcs_uri := none, mime_type := image_mime_type } := by
  have htruthy : pyTruthyBytes (some bs) = true := by
    simp [pyTruthyBytes, hbs]
  simp [selectSourceImage, htruthy]

/-- Witness for C8: inline bytes together with a non-empty URI; the bytes win
and the URI does not appear in the request. -/
theorem C8_inline_bytes_take_precedence_witness :
    selectSourceImage (some [9, 9, 9]) "gs://bucket/source.png" "image/png" =
      .ok { image_bytes := some [9, 9, 9], gcs_uri := none, mime_type := "image/png" } :=
  C8_inline_bytes_take_precedence [9, 9, 9] "gs://bucket/source.png" "image/png" (by decide)

/-- Python truthiness of an optional string (`if negative_prompt:`):
falsy when `None` or empty. -/
def pyTruthyStr : Option String → Bool
  | none => false
  | some s => !s.isEmpty

/-- The `GenerateVideosConfig` request object, with the optional fields the
nodes set conditionally modelled as `Option` (absent = not passed). -/
structure GenerateVideosConfig where
  aspect_ratio : String
  duration_seconds : Int
  resolution : String
  fps : Int
  enhance_prompt : Bool
  generate_audio : Bool
  number_of_videos : Int
  person_generation : String
  compression_quality : String
  output_gcs_uri : Option String
  negative_prompt : Option String
  seed : Option Int
deriving Repr, DecidableEq

/-- Config construction of `api_nodes/.../vertex_image_to_video.py::execute`:
the base `config_params` dict plus the three conditional entries
(`negative_prompt` if truthy, `seed` if `seed >= 0`, `output_gcs_uri` if
`output_format == "gcs_uri"`). -/
def buildConfigImageToVideo (aspect_ratio : String) (duration_seconds : Int)
    (resolution : String) (fps : Int) (enhance_prompt generate_audio : Bool)
    (number_of_videos : Int) (person_generation compression_quality : String)
    (negative_prompt : Option String) (seed : Int)
    (output_format output_gcs_uri : String) : GenerateVideosConfig :=
  { aspect_ratio := aspect_ratio
    duration_seconds := duration_seconds
    resolution := resolution
    fps := fps
    enhance_prompt := enhance_prompt
    generate_audio := generate_audio
    number_of_videos := number_of_videos
    person_generation := person_generation
    compression_quality := compression_quality
    output_gcs_uri := if output_format = "gcs_uri" then some output_gcs_uri else none
    negative_prompt := if pyTruthyStr negative_prompt then negative_prompt else none
    seed := if 0 ≤ seed then some seed else none }

/-- Config construction of `video_generation/vertex_text_to_video.py::execute`:
`compression_quality` is hard-coded to `"LOSSLESS"` and `output_gcs_uri` is
always set; `negative_prompt` and `seed` are conditional as above. -/
def buildConfigTextToVideo (aspect_ratio : String) (duration_seconds : Int)
    (resolution : String) (fps : Int) (enhance_prompt generate_audio : Bool)
    (number_of_videos : Int) (person_generation : String)
    (negative_prompt : Option String) (seed : Int)
    (output_gcs_uri : String) : GenerateVideosConfig :=
  { aspect_ratio := aspect_ratio
    duration_seconds := duration_seconds
    resolution := resolution
    fps := fps
    enhance_prompt := enhance_prompt
    generate_audio := generate_audio
    number_of_videos := number_of_videos
    person_generation := person_generation
    compression_quality := "LOSSLESS"
    output_gcs_uri := some output_gcs_uri
    negative_prompt := if pyTruthyStr negative_prompt then negative_prompt else none
    seed := if 0 ≤ seed then some seed else none }

/-- C6: in both config builders, a negative seed is omitted from the backend
request configuration (letting the backend randomize) and a non-negative seed
is included unchanged. -/
theorem C6_negative_seed_omitted (aspect_ratio : String) (duration_seconds : Int)
    (resolution : String) (fps : Int) (enhance_prompt generate_audio : Bool)
    (number_of_videos : Int) (person_generation compression_quality : String)
    (negative_prompt : Option String) (seed : Int)
    (output_format output_gcs_uri : String) :
    (seed < 0 →
      (buildConfigImageToVideo aspect_ratio duration_seconds resolution fps
        enhance_prompt generate_audio number_of_videos person_generation
        compression_quality negative_prompt seed output_format output_gcs_uri).seed = none ∧
      (buildConfigTextToVideo aspect_ratio duration_seconds resolution fps
        enhance_prompt generate_audio number_of_videos person_generation
        negative_prompt seed output_gcs_uri).seed = none)
  ∧ (0 ≤ seed →
      (buildConfigImageToVideo aspect_ratio duration_seconds resolution fps
        enhance_prompt generate_audio number_of_videos person_generation
        compression_quality negative_prompt seed output_format output_gcs_uri).seed = some seed ∧
      (buildConfigTextToVideo aspect_ratio duration_seconds resolution fps
        enhance_prompt generate_audio number_of_videos person_generation
        negative_prompt seed output_gcs_uri).seed = some seed) := by
  constructor
  · intro hneg
    have : ¬ (0 ≤ seed) := by omega
    constructor <;> simp [buildConfigImageToVideo, buildConfigTextToVideo, this]
  · intro hnonneg
    constructor <;> simp [buildConfigImageToVideo, buildConfigTextToVideo, hnonneg]

/-- Witness for C6 at concrete configs: seed `-1` is dropped, seed `42` is
kept unchanged. -/
theorem C6_negative_seed_omitted_witness :
    (buildConfigImageToVideo "16:9" 8 "1080p" 24 true true 1 "allow_adult"
      "LOSSLESS" none (-1) "local_file" "").seed = none
  ∧ (buildConfigTextToVideo "16:9" 8 "1080p" 24 true true 1 "allow_adult"
      none (-1) "gs://b/out.mp4").seed = none
  ∧ (buildConfigImageToVideo "16:9" 8 "1080p" 24 true true 1 "allow_adult"
      "LOSSLESS" none 42 "local_file" "").seed = some 42
  ∧ (buildConfigTextToVideo "16:9" 8 "1080p" 24 true true 1 "allow_adult"
      none 42 "gs://b/out.mp4").seed = some 42 := by
  have h1 := (C6_negative_seed_omitted "16:9" 8 "1080p" 24 true true 1 "allow_adult"
    "LOSSLESS" none (-1) "local_file" "").1 (by decide)
  have h2 := (C6_negative_seed_omitted "16:9" 8 "1080p" 24 true true 1 "allow_adult"
    "LOSSLESS" none 42 "local_file" "").2 (by decide)
  exact ⟨h1.1, h1.2, h2.1, h2.2⟩

/-- The strict GCS URI parse of `utils.download_from_gcs`:
`re.match(r"gs://([^/]+)/(.+)", gcs_uri)`.  `re.match` anchors at the start
only; `[^/]+` greedily takes the non-empty bucket, a literal `/` must follow,
and `(.+)` takes the non-empty remainder up to a newline (`.` does not match
`\n`). -/
def parseGcsUri (gcs_uri : String) : Option (String × String) :=
  if ("gs://".data).isPrefixOf gcs_uri.data then
    let rest := gcs_uri.data.drop 5
    let bucket := rest.takeWhile (fun c => c ≠ '/')
    if bucket = [] then none
    else
      match rest.drop bucket.length with
      | '/' :: tail =>
        let blob := tail.takeWhile (fun c => c ≠ '\n')
        if blob = [] then none else some (bucket.asString, blob.asString)
      | _ => none
  else none

/-- `utils.download_from_gcs`: validate the URI, then download the blob to the
local destination and return that path.  The GCS download is an explicit
argument, so an output independent of it shows no download was attempted (the
Python code constructs the storage client before validating, but issues no
network/download call until `blob.download_to_filename`, which follows the
validation).  The local destination-path synthesis (absolute path passed
through, else a seed/timestamp temp file) is abstracted as `destPath`; no
claim depends on it. -/
def download_from_gcs (gcs_uri : String) (destPath : String)
    (download : String → String → List Nat) : Except String (String × List Nat) :=
  match parseGcsUri gcs_uri with
  | none => .error ("Invalid GCS URI: " ++ gcs_uri)
  | some (bucket, blob) => .ok (destPath, download bucket blob)

/-- The URI validation of `LoadVideoGCS.load_video`: `startswith("gs://")`,
then `split("/", 1)` into bucket and blob path, both required non-empty. -/
def load_video_validate (video_uri : String) : Except String (String × String) :=
  if ¬ ("gs://".data).isPrefixOf video_uri.data then
    .error "video_uri must be a valid GCS URI starting with gs://"
  else
    let rest := video_uri.data.drop 5
    let bucket_name := rest.takeWhile (fun c => c ≠ '/')
    let blob_path :=
      if bucket_name.length < rest.length then rest.drop (bucket_name.length + 1) else []
    if bucket_name = [] then .error "GCS bucket name must be provided in the URI"
    else if blob_path = [] then .error "Video path in GCS bucket is required"
    else .ok (bucket_name.asString, blob_path.asString)

/-- `os.path.basename` on a `/`-separated path. -/
def pathBasename (p : String) : String := (p.splitOn "/").getLastD p

/-- `LoadVideoGCS.load_video`: validate, then download the blob into the
`gcs_downloads` folder under the ComfyUI output directory, named after the
blob's basename.  The download is an explicit argument as above. -/
def load_video (video_uri : String) (download : String → String → List Nat) :
    Except String (String × List Nat) :=
  match load_video_validate video_uri with
  | .error e => .error e
  | .ok (bucket_name, blob_path) =>
      .ok ("~/Documents/ComfyUI/output/gcs_downloads/" ++ pathBasename blob_path,
           download bucket_name blob_path)

/-- C7: a malformed storage URI (not of the `gs://bucket/path` form) given to
either download path fails with an invalid-request style error whose value is
independent of the download backend, so no download is attempted. -/
theorem C7_malformed_uri_rejected_before_download (uri : String) :
    (parseGcsUri uri = none →
      ∀ destPath download,
        download_from_gcs uri destPath download = .error ("Invalid GCS URI: " ++ uri))
  ∧ (∀ e, load_video_validate uri = .error e →
      ∀ download, load_video uri download = .error e) := by
  constructor
  · intro hparse destPath download
    simp [download_from_gcs, hparse]
  · intro e hval download
    simp [load_video, hval]

/-- Witness for C7 at the spec's concrete input `"not-a-uri"`, with two
different download backends. -/
theorem C7_malformed_uri_rejected_before_download_witness :
    parseGcsUri "not-a-uri" = none
  ∧ download_from_gcs "not-a-uri" "/tmp/v.mp4" (fun _ _ => [1]) =
      .error "Invalid GCS URI: not-a-uri"
  ∧ download_from_gcs "not-a-uri" "/tmp/v.mp4" (fun _ _ => [2]) =
      .error "Invalid GCS URI: not-a-uri"
  ∧ load_video "not-a-uri" (fun _ _ => [1]) =
      .error "video_uri must be a valid GCS URI starting with gs://" := by
  have hparse : parseGcsUri "not-a-uri" = none := by decide
  have hval : load_video_validate "not-a-uri" =
      .error "video_uri must be a valid GCS URI starting with gs://" := by decide
  refine ⟨hparse, ?_, ?_, ?_⟩
  · exact (C7_malformed_uri_rejected_before_download "not-a-uri").1 hparse _ _
  · exact (C7_malformed_uri_rejected_before_download "not-a-uri").1 hparse _ _
  · exact (C7_malformed_uri_rejected_before_download "not-a-uri").2 _ hval _

/-- A local filesystem write: the path opened with `"wb"` and the bytes
written. -/
structure FileWrite where
  path : String
  contents : List Nat
deriving Repr, DecidableEq

/-- The path `utils.save_video_locally` allocates:
`{output_root}/vertex/video_{timestamp}_{seed if seed >= 0 else 'rand'}.mp4`. -/
def localSavePath (outputRoot timestamp : String) (file_seed : Int) : String :=
  outputRoot ++ "/vertex" ++ "/" ++
    ("video_" ++ timestamp ++ "_" ++
      (if 0 ≤ file_seed then toString file_seed else "rand") ++ ".mp4")

/-- `utils.save_video_locally`: write the video bytes to the allocated path in
the `vertex` subfolder of the output directory and return that path.  The
clock is passed in as `timestamp`; the filesystem effect is returned as a
`FileWrite`. -/
def save_video_locally (outputRoot timestamp : String) (video_bytes : List Nat)
    (seed : Int) : String × FileWrite :=
  let video_path := localSavePath outputRoot timestamp seed
  (video_path, { path := video_path, contents := video_bytes })

/-- The result-materialization loop of
`api_nodes/.../vertex_image_to_video.py::execute`:
`for i, video_data in enumerate(result.generated_videos)`, appending the GCS
URI unchanged when `output_format == "gcs_uri"`, else saving locally with
`file_seed = seed + i` (unless `seed == -1`).  `k` is the enumeration index of
the first remaining item; `tsOf i` is the clock reading at the `i`-th save.
Returns `(video_uris, video_paths, file writes)`. -/
def materializeGo (output_format : String) (seed : Int) (outputRoot : String)
    (tsOf : Nat → String) : Nat → List GeneratedVideo →
    List String × List String × List FileWrite
  | _, [] => ([], [], [])
  | k, v :: rest =>
    let r := materializeGo output_format seed outputRoot tsOf (k + 1) rest
    if output_format = "gcs_uri" then
      (v.video.uri :: r.1, r.2.1, r.2.2)
    else
      let file_seed := if seed ≠ -1 then seed + (k : Int) else seed
      let pw := save_video_locally outputRoot (tsOf k) v.video.video_bytes file_seed
      (r.1, pw.1 :: r.2.1, pw.2 :: r.2.2)

/-- The full materialization step over `result.generated_videos`. -/
def materializeVideos (output_format : String) (seed : Int) (outputRoot : String)
    (tsOf : Nat → String) (videos : List GeneratedVideo) :
    List String × List String × List FileWrite :=
  materializeGo output_format seed outputRoot tsOf 0 videos

/-- Reading back a file after a sequence of writes: the contents of the last
write to that path, if any. -/
def readFile (writes : List FileWrite) (p : String) : Option (List Nat) :=
  match writes with
  | [] => none
  | w :: rest =>
    match readFile rest p with
    | some c => some c
    | none => if w.path = p then some w.contents else none

theorem materializeGo_gcs (seed : Int) (outputRoot : String) (tsOf : Nat → String) :
    ∀ (videos : List GeneratedVideo) (k : Nat),
      materializeGo "gcs_uri" seed outputRoot tsOf k videos =
        (videos.map (fun v => v.video.uri), [], []) := by
  intro videos
  induction videos with
  | nil => intro k; rfl
  | cons v rest ih =>
    intro k
    simp [materializeGo, ih (k + 1)]

/-- C4: for a completed result with remote-URI output (`output_format ==
"gcs_uri"`), the materialization step returns each item's remote URI unchanged
and in order, produces no local paths and performs no local file writes (the
GCS branch of the loop touches neither the filesystem nor the storage
backend). -/
theorem C4_gcs_uris_passed_through (seed : Int) (outputRoot : String)
    (tsOf : Nat → String) (videos : List GeneratedVideo) :
    materializeVideos "gcs_uri" seed outputRoot tsOf videos =
      (videos.map (fun v => v.video.uri), [], []) :=
  materializeGo_gcs seed outputRoot tsOf videos 0

theorem toDigitsCore_append (b : Nat) :
    ∀ (fuel n : Nat) (ds : List Char), ∃ pre, Nat.toDigitsCore b fuel n ds = pre ++ ds := by
  intro fuel
  induction fuel with
  | zero => intro n ds; exact ⟨[], rfl⟩
  | succ f ih =>
    intro n ds
    by_cases h : n / b = 0
    · exact ⟨[Nat.digitChar (n % b)], by simp [Nat.toDigitsCore, h]⟩
    · obtain ⟨pre, hpre⟩ := ih (n / b) (Nat.digitChar (n % b) :: ds)
      refine ⟨pre ++ [Nat.digitChar (n % b)], ?_⟩
      simp [Nat.toDigitsCore, h, hpre]

theorem toDigitsCore_succ_ends (b fuel n : Nat) (ds : List Char) :
    ∃ pre, Nat.toDigitsCore b (fuel + 1) n ds = pre ++ Nat.digitChar (n % b) :: ds := by
  by_cases h : n / b = 0
  · exact ⟨[], by simp [Nat.toDigitsCore, h]⟩
  · obtain ⟨pre, hpre⟩ := toDigitsCore_append b fuel (n / b) (Nat.digitChar (n % b) :: ds)
    exact ⟨pre, by simp [Nat.toDigitsCore, h, hpre]⟩

/-- The decimal representation of a natural number ends with the digit of
`n % 10`. -/
theorem Nat_repr_ends_with_last_digit (n : Nat) :
    ∃ pre, (Nat.repr n).data = pre ++ [Nat.digitChar (n % 10)] := by
  obtain ⟨pre, hpre⟩ := toDigitsCore_succ_ends 10 n n []
  exact ⟨pre, by simp [Nat.repr, Nat.toDigits, List.asString, hpre]⟩

theorem digitChar_inj_lt10 :
    ∀ a, a < 10 → ∀ b, b < 10 → Nat.digitChar a = Nat.digitChar b → a = b := by decide

/-- Naturals with different last decimal digits have different decimal
representations. -/
theorem Nat_repr_ne_of_mod10_ne {m n : Nat} (h : m % 10 ≠ n % 10) :
    Nat.repr m ≠ Nat.repr n := by
  obtain ⟨p1, h1⟩ := Nat_repr_ends_with_last_digit m
  obtain ⟨p2, h2⟩ := Nat_repr_ends_with_last_digit n
  intro heq
  have hdata : (Nat.repr m).data = (Nat.repr n).data := by rw [heq]
  rw [h1, h2] at hdata
  have hlast := congrArg List.getLast? hdata
  simp only [List.getLast?_concat] at hlast
  have hm : m % 10 < 10 := Nat.mod_lt _ (by norm_num)
  have hn : n % 10 < 10 := Nat.mod_lt _ (by norm_num)
  exact h (digitChar_inj_lt10 _ hm _ hn (Option.some.inj hlast))

theorem Int_toString_nonneg {s : Int} (h : 0 ≤ s) : toString s = Nat.repr s.toNat := by
  cases s with
  | ofNat m => rfl
  | negSucc m => exact absurd h (by exact of_decide_eq_false rfl)

theorem Int_toString_ne {s1 s2 : Int} (h1 : 0 ≤ s1) (h2 : 0 ≤ s2)
    (h : s1.toNat % 10 ≠ s2.toNat % 10) : toString s1 ≠ toString s2 := by
  rw [Int_toString_nonneg h1, Int_toString_nonneg h2]
  exact Nat_repr_ne_of_mod10_ne h

theorem str_eq_of_data {a b : String} (h : a.data = b.data) : a = b := by
  cases a; cases b; exact congrArg String.mk h

theorem strAppend_cancel_left {a b c : String} (h : a ++ b = a ++ c) : b = c := by
  have hd : a.data ++ b.data = a.data ++ c.data := by
    have := congrArg String.data h
    simpa [String.data_append] using this
  exact str_eq_of_data (List.append_cancel_left hd)

theorem strAppend_cancel_right {a b c : String} (h : a ++ c = b ++ c) : a = b := by
  have hd : a.data ++ c.data = b.data ++ c.data := by
    have := congrArg String.data h
    simpa [String.data_append] using this
  exact str_eq_of_data (List.append_cancel_right hd)

/-- Distinct non-negative file seeds yield distinct allocated paths (same root
and timestamp). -/
theorem localSavePath_ne (outputRoot timestamp : String) {s1 s2 : Int}
    (h1 : 0 ≤ s1) (h2 : 0 ≤ s2) (hne : toString s1 ≠ toString s2) :
    localSavePath outputRoot timestamp s1 ≠ localSavePath outputRoot timestamp s2 := by
  intro heq
  rw [localSavePath, localSavePath, if_pos h1, if_pos h2] at heq
  have h3 := strAppend_cancel_left heq
  have h4 := strAppend_cancel_right h3
  exact hne (strAppend_cancel_left h4)

theorem materializeGo_local (seed : Int) (outputRoot : String) (tsOf : Nat → String)
    (hseed : seed ≠ -1) :
    ∀ (videos : List GeneratedVideo) (k : Nat),
      materializeGo "local_file" seed outputRoot tsOf k videos =
        ([],
         (videos.enumFrom k).map (fun p =>
           localSavePath outputRoot (tsOf p.1) (seed + (p.1 : Int))),
         (videos.enumFrom k).map (fun p =>
           { path := localSavePath outputRoot (tsOf p.1) (seed + (p.1 : Int)),
             contents := p.2.video.video_bytes })) := by
  intro videos
  induction videos with
  | nil => intro k; rfl
  | cons v rest ih =>
    intro k
    rw [materializeGo, if_neg (by decide : ¬ ("local_file" = "gcs_uri")),
      if_pos hseed, ih (k + 1)]
    simp [List.enumFrom, save_video_locally]

theorem enumFrom_getElem? {α : Type} (l : List α) : ∀ (k i : Nat),
    (l.enumFrom k)[i]? = (l[i]?).map (fun a => (k + i, a)) := by
  induction l with
  | nil => intro k i; simp [List.enumFrom]
  | cons x xs ih =>
    intro k i
    cases i with
    | zero => simp [List.enumFrom]
    | succ j =>
      simp only [List.enumFrom, List.getElem?_cons_succ, ih (k + 1) j]
      have : k + 1 + j = k + (j + 1) := by omega
      rw [this]

/-- C5: with local-file output and a non-negative base seed, the materializer
walks the items with 0-based indices and the `i`-th saved filename encodes
`seed + i`; in particular for base seed 7 and 3 outputs the items are indexed
0, 1, 2 and the filenames encode seeds 7, 8, 9 (witness). -/
theorem C5_seed_offset_filenames (outputRoot : String) (tsOf : Nat → String)
    (seed : Int) (videos : List GeneratedVideo) (hseed : 0 ≤ seed) :
    (materializeVideos "local_file" seed outputRoot tsOf videos).2.1 =
      (videos.enumFrom 0).map (fun p =>
        localSavePath outputRoot (tsOf p.1) (seed + (p.1 : Int)))
  ∧ (materializeVideos "local_file" seed outputRoot tsOf videos).2.2 =
      (videos.enumFrom 0).map (fun p =>
        { path := localSavePath outputRoot (tsOf p.1) (seed + (p.1 : Int)),
          contents := p.2.video.video_bytes })
  ∧ ∀ i, i < videos.length →
      ((materializeVideos "local_file" seed outputRoot tsOf videos).2.1)[i]? =
        some (outputRoot ++ "/vertex" ++ "/" ++
          ("video_" ++ tsOf i ++ "_" ++ toString (seed + (i : Int)) ++ ".mp4")) := by
  have hne : seed ≠ -1 := by omega
  have hchar := materializeGo_local seed outputRoot tsOf hne videos 0
  refine ⟨?_, ?_, ?_⟩
  · rw [materializeVideos, hchar]
  · rw [materializeVideos, hchar]
  · intro i hi
    rw [materializeVideos, hchar]
    have hv : videos[i]? = some videos[i] := List.getElem?_eq_getElem hi
    simp only [List.getElem?_map, enumFrom_getElem?, Nat.zero_add, hv, Option.map_some']
    rw [localSavePath, if_pos (by omega : (0 : Int) ≤ seed + (i : Int))]

/-- Shorthand for a generated video item. -/
def gv (u : String) (b : List Nat) : GeneratedVideo :=
  { video := { uri := u, video_bytes := b } }

/-- Example three-item generation result. -/
def vidsEx : List GeneratedVideo :=
  [gv "gs://b/0.mp4" [10], gv "gs://b/1.mp4" [20], gv "gs://b/2.mp4" [30]]

/-- Witness for C5: base seed 7, three outputs; items 0, 1, 2 are saved with
filenames encoding seeds 7, 8, 9. -/
theorem C5_seed_offset_filenames_witness :
    (materializeVideos "local_file" 7 "/out" (fun _ => "20250101-000000") vidsEx).2.1 =
      ["/out/vertex/video_20250101-000000_7.mp4",
       "/out/vertex/video_20250101-000000_8.mp4",
       "/out/vertex/video_20250101-000000_9.mp4"]
  ∧ (materializeVideos "local_file" 7 "/out" (fun _ => "20250101-000000") vidsEx).2.2 =
      [{ path := "/out/vertex/video_20250101-000000_7.mp4", contents := [10] },
       { path := "/out/vertex/video_20250101-000000_8.mp4", contents := [20] },
       { path := "/out/vertex/video_20250101-000000_9.mp4", contents := [30] }] := by
  have h := C5_seed_offset_filenames "/out" (fun _ => "20250101-000000") 7 vidsEx (by decide)
  refine ⟨?_, ?_⟩
  · rw [h.1]; decide
  · rw [h.2.1]; decide

/-- C9: materializing three inline-byte items to local files (non-negative
base seed, one clock reading) produces three pairwise-distinct paths, and
reading back each produced file yields exactly the corresponding input byte
buffer. -/
theorem C9_local_materialization_roundtrip (outputRoot ts : String) (seed : Int)
    (v0 v1 v2 : GeneratedVideo) (hseed : 0 ≤ seed) :
    (materializeVideos "local_file" seed outputRoot (fun _ => ts) [v0, v1, v2]).2.1 =
      [localSavePath outputRoot ts seed,
       localSavePath outputRoot ts (seed + 1),
       localSavePath outputRoot ts (seed + 2)]
  ∧ (localSavePath outputRoot ts seed ≠ localSavePath outputRoot ts (seed + 1)
      ∧ localSavePath outputRoot ts seed ≠ localSavePath outputRoot ts (seed + 2)
      ∧ localSavePath outputRoot ts (seed + 1) ≠ localSavePath outputRoot ts (seed + 2))
  ∧ readFile (materializeVideos "local_file" seed outputRoot (fun _ => ts) [v0, v1, v2]).2.2
      (localSavePath outputRoot ts seed) = some v0.video.video_bytes
  ∧ readFile (materializeVideos "local_file" seed outputRoot (fun _ => ts) [v0, v1, v2]).2.2
      (localSavePath outputRoot ts (seed + 1)) = some v1.video.video_bytes
  ∧ readFile (materializeVideos "local_file" seed outputRoot (fun _ => ts) [v0, v1, v2]).2.2
      (localSavePath outputRoot ts (seed + 2)) = some v2.video.video_bytes := by
  have hne : seed ≠ -1 := by omega
  have hchar := materializeGo_local seed outputRoot (fun _ => ts) hne [v0, v1, v2] 0
  simp [List.enumFrom] at hchar
  have d01 := @localSavePath_ne outputRoot ts seed (seed + 1) hseed (by omega)
    (@Int_toString_ne seed (seed + 1) hseed (by omega) (by omega))
  have d02 := @localSavePath_ne outputRoot ts seed (seed + 2) hseed (by omega)
    (@Int_toString_ne seed (seed + 2) hseed (by omega) (by omega))
  have d12 := @localSavePath_ne outputRoot ts (seed + 1) (seed + 2) (by omega) (by omega)
    (@Int_toString_ne (seed + 1) (seed + 2) (by omega) (by omega) (by omega))
  rw [materializeVideos, hchar]
  refine ⟨rfl, ⟨d01, d02, d12⟩, ?_, ?_, ?_⟩
  · simp [readFile, Ne.symm d01, Ne.symm d02]
  · simp [readFile, d01, Ne.symm d12]
  · simp [readFile, d02, d12]

/-- Witness for C9: seed 7, three concrete byte buffers; distinct concrete
paths and exact read-back. -/
theorem C9_local_materialization_roundtrip_witness :
    (materializeVideos "local_file" 7 "/o" (fun _ => "T")
        [gv "a" [1], gv "b" [2, 2], gv "c" [3]]).2.1 =
      ["/o/vertex/video_T_7.mp4", "/o/vertex/video_T_8.mp4", "/o/vertex/video_T_9.mp4"]
  ∧ ("/o/vertex/video_T_7.mp4" : String) ≠ "/o/vertex/video_T_8.mp4"
  ∧ ("/o/vertex/video_T_7.mp4" : String) ≠ "/o/vertex/video_T_9.mp4"
  ∧ ("/o/vertex/video_T_8.mp4" : String) ≠ "/o/vertex/video_T_9.mp4"
  ∧ readFile (materializeVideos "local_file" 7 "/o" (fun _ => "T")
        [gv "a" [1], gv "b" [2, 2], gv "c" [3]]).2.2 "/o/vertex/video_T_7.mp4" = some [1]
  ∧ readFile (materializeVideos "local_file" 7 "/o" (fun _ => "T")
        [gv "a" [1], gv "b" [2, 2], gv "c" [3]]).2.2 "/o/vertex/video_T_8.mp4" = some [2, 2]
  ∧ readFile (materializeVideos "local_file" 7 "/o" (fun _ => "T")
        [gv "a" [1], gv "b" [2, 2], gv "c" [3]]).2.2 "/o/vertex/video_T_9.mp4" = some [3] := by
  have h := C9_local_materialization_roundtrip "/o" "T" 7
    (gv "a" [1]) (gv "b" [2, 2]) (gv "c" [3]) (by decide)
  have e0 : localSavePath "/o" "T" 7 = "/o/vertex/video_T_7.mp4" := by decide
  have e1 : localSavePath "/o" "T" (7 + 1) = "/o/vertex/video_T_8.mp4" := by decide
  have e2 : localSavePath "/o" "T" (7 + 2) = "/o/vertex/video_T_9.mp4" := by decide
  obtain ⟨hp, ⟨d01, d02, d12⟩, r0, r1, r2⟩ := h
  simp only [e0, e1, e2] at hp d01 d02 d12 r0 r1 r2
  exact ⟨hp, d01, d02, d12, r0, r1, r2⟩

/-- The `DefaultMixin` enumeration pattern of `settings.py`: a closed set of
member values (in declaration order, canonical members only — the `_default`
assignment reuses an existing member's value and so becomes a non-iterated
alias in Python's `Enum`) together with the optionally designated default
member's value. -/
structure DefaultEnumSpec where
  name : String
  options : List String
  defaultMember : Option String
deriving Repr, DecidableEq

/-- `DefaultMixin.default`: the designated member's value, or
`NotImplementedError` when no `_default` member is designated. -/
def DefaultEnumSpec.default (e : DefaultEnumSpec) : Except String String :=
  match e.defaultMember with
  | none => .error ("No `_default` member defined for " ++ e.name)
  | some v => .ok v

namespace settings

/-- `settings.AspectRatio`. -/
def AspectRatio : DefaultEnumSpec :=
  { name := "AspectRatio", options := ["16:9", "9:16", "1:1"], defaultMember := some "16:9" }

/-- `settings.Resolution`. -/
def Resolution : DefaultEnumSpec :=
  { name := "Resolution", options := ["1080p", "720p"], defaultMember := some "1080p" }

/-- `settings.PersonGeneration`. -/
def PersonGeneration : DefaultEnumSpec :=
  { name := "PersonGeneration", options := ["allow_adult", "dont_allow"],
    defaultMember := some "allow_adult" }

/-- `settings.OutputFormat`. -/
def OutputFormat : DefaultEnumSpec :=
  { name := "OutputFormat", options := ["local_file", "gcs_uri"],
    defaultMember := some "local_file" }

/-- `settings.ImageMimeType`. -/
def ImageMimeType : DefaultEnumSpec :=
  { name := "ImageMimeType", options := ["image/png", "image/jpeg"],
    defaultMember := some "image/png" }

/-- `settings.VideoMimeType`. -/
def VideoMimeType : DefaultEnumSpec :=
  { name := "VideoMimeType", options := ["video/mp4"], defaultMember := some "video/mp4" }

/-- `settings.ReferenceType`. -/
def ReferenceType : DefaultEnumSpec :=
  { name := "ReferenceType", options := ["ASSET", "STYLE"], defaultMember := some "ASSET" }

/-- `settings.CompressionQuality` (member values are the
`VideoCompressionQuality` string constants of the GenAI SDK). -/
def CompressionQuality : DefaultEnumSpec :=
  { name := "CompressionQuality", options := ["LOSSLESS", "OPTIMIZED"],
    defaultMember := some "LOSSLESS" }

/-- `settings.VeoModel`. -/
def VeoModel : DefaultEnumSpec :=
  { name := "VeoModel",
    options := ["veo-3.1-generate-preview", "veo-3.1-fast-generate-preview",
      "veo-3.0-generate-001", "veo-3.0-fast-generate-001", "veo-2.0-generate-001",
      "veo-2.0-generate-exp", "veo-2.0-generate-preview"],
    defaultMember := some "veo-3.1-generate-preview" }

/-- `settings.MaskModel`. -/
def MaskModel : DefaultEnumSpec :=
  { name := "MaskModel", options := ["veo-2.0-generate-preview", "veo-2.0-generate-001"],
    defaultMember := some "veo-2.0-generate-preview" }

end settings

/-- C10: each option enumeration of the settings module returns its designated
default member's value from `default()`, that value is an element of
`options()`, and a `DefaultMixin` enumeration with no designated default
raises from `default()` instead of returning a value. -/
theorem C10_enum_defaults_well_formed :
    (settings.AspectRatio.default = .ok "16:9" ∧ "16:9" ∈ settings.AspectRatio.options)
  ∧ (settings.Resolution.default = .ok "1080p" ∧ "1080p" ∈ settings.Resolution.options)
  ∧ (settings.PersonGeneration.default = .ok "allow_adult"
      ∧ "allow_adult" ∈ settings.PersonGeneration.options)
  ∧ (settings.OutputFormat.default = .ok "local_file"
      ∧ "local_file" ∈ settings.OutputFormat.options)
  ∧ (settings.ImageMimeType.default = .ok "image/png"
      ∧ "image/png" ∈ settings.ImageMimeType.options)
  ∧ (settings.VideoMimeType.default = .ok "video/mp4"
      ∧ "video/mp4" ∈ settings.VideoMimeType.options)
  ∧ (settings.ReferenceType.default = .ok "ASSET" ∧ "ASSET" ∈ settings.ReferenceType.options)
  ∧ (settings.CompressionQuality.default = .ok "LOSSLESS"
      ∧ "LOSSLESS" ∈ settings.CompressionQuality.options)
  ∧ (settings.VeoModel.default = .ok "veo-3.1-generate-preview"
      ∧ "veo-3.1-generate-preview" ∈ settings.VeoModel.options)
  ∧ (settings.MaskModel.default = .ok "veo-2.0-generate-preview"
      ∧ "veo-2.0-generate-preview" ∈ settings.MaskModel.options)
  ∧ (∀ nm opts, (DefaultEnumSpec.mk nm opts none).default =
      .error ("No `_default` member defined for " ++ nm)) := by
  refine ⟨?_, ?_, ?_, ?_, ?_, ?_, ?_, ?_, ?_, ?_, ?_⟩
  all_goals first
    | exact ⟨rfl, by decide⟩
    | (intro nm opts; rfl)

end Adforge
